import Mathlib

set_option autoImplicit false

namespace Spec2Proof

/- Shallow embedding of the TeamADAPT/pydantic-ai example repository:
   durable workflow orchestration glue around a Temporal-style engine.
   Definitions are translated from the Python sources under src/examples/.
   Parts of the durable-execution engine itself, which the repository uses
   but does not implement, are modelled from the specification and marked
   `Modelled from the spec:` in their doc comments. -/

/-- Boolean test that the character list `needle` occurs at the start of
`hay`, comparing character by character. -/
def leadsWith : List Char → List Char → Bool
  | [], _ => true
  | _ :: _, [] => false
  | a :: ns, b :: hs => a == b && leadsWith ns hs

/-- Boolean test that `needle` occurs contiguously somewhere in `hay`. -/
def hasSub (needle : List Char) : List Char → Bool
  | [] => needle.isEmpty
  | b :: hs => leadsWith needle (b :: hs) || hasSub needle hs

/-- Python `needle in hay` on strings: substring containment. -/
def strContains (hay needle : String) : Bool :=
  hasSub needle.toList hay.toList

/-- One entry of the `sources` list built by `bleeding_edge_research_activity`
(temporal_research_workflows_v2.py lines 59-68): title, url, content, the
originating query and the `published_date` field reported by the search API. -/
structure SourceEntry where
  title : String
  url : String
  content : String
  query : String
  published_date : String
  deriving DecidableEq

/-- The date test applied per source in `bleeding_edge_research_activity`
(temporal_research_workflows_v2.py lines 73-76 and the identical code in
bleeding_edge_research_final.py lines 72-77): the `published_date` string
contains one of the month tags `2025-06` through `2025-11`. -/
def matchesDateFilter (date_str : String) : Bool :=
  strContains date_str "2025-06" || strContains date_str "2025-07" ||
  strContains date_str "2025-08" || strContains date_str "2025-09" ||
  strContains date_str "2025-10" || strContains date_str "2025-11"

/-- The source-filtering step of `bleeding_edge_research_activity`
(temporal_research_workflows_v2.py lines 70-81): keep the sources whose
`published_date` matches the June-November 2025 filter, but if none match,
fall back to the first 10 unfiltered sources. -/
def filterBleedingEdgeSources (sources : List SourceEntry) : List SourceEntry :=
  let filtered_sources := sources.filter (fun s => matchesDateFilter s.published_date)
  if filtered_sources.isEmpty then sources.take 10 else filtered_sources

/-- The dictionary returned by `bleeding_edge_research_activity`
(temporal_research_workflows_v2.py lines 104-115), as an association list
from key strings to values; the value type is abstract since only key
presence matters for the pipeline claims. -/
def researchActivityOutput {V : Type} (topic sources key_concepts total_sources
    concepts_found coverage timestamp date_filter raw_count filtered_count : V) :
    List (String × V) :=
  [("topic", topic), ("sources", sources), ("key_concepts", key_concepts),
   ("total_sources", total_sources), ("concepts_found", concepts_found),
   ("coverage", coverage), ("timestamp", timestamp), ("date_filter", date_filter),
   ("raw_count", raw_count), ("filtered_count", filtered_count)]

/-- Python subscript access `d[k]` on a dict: the value when the key is
present, and a `KeyError` carrying the key when it is absent. -/
def dictGet {V : Type} (d : List (String × V)) (k : String) : Except String V :=
  match d.lookup k with
  | some v => Except.ok v
  | none => Except.error k

/-- Key accesses performed by `generate_markdown_report_activity`
(temporal_research_workflows_v2.py lines 119-182), in source evaluation
order: `topic` (line 121), then inside the report f-string `timestamp`,
`date_filter`, `filtered_count`, `raw_count`, `executive_summary`
(lines 127-135), then `key_findings` (line 144), `key_concepts` (line 154),
`sources` (line 164) and `recommendations` (line 181). The first absent key
raises `KeyError`. -/
def generateMarkdownReport {V : Type} (research_data : List (String × V)) :
    Except String (List V) := do
  let topic ← dictGet research_data "topic"
  let timestamp ← dictGet research_data "timestamp"
  let date_filter ← dictGet research_data "date_filter"
  let filtered_count ← dictGet research_data "filtered_count"
  let raw_count ← dictGet research_data "raw_count"
  let executive_summary ← dictGet research_data "executive_summary"
  let key_findings ← dictGet research_data "key_findings"
  let key_concepts ← dictGet research_data "key_concepts"
  let sources ← dictGet research_data "sources"
  let recommendations ← dictGet research_data "recommendations"
  Except.ok [topic, timestamp, date_filter, filtered_count, raw_count,
    executive_summary, key_findings, key_concepts, sources, recommendations]

/-- The two-activity pipeline of `BleedingEdgeResearchWorkflow.run`
(temporal_research_workflows_v2.py lines 230-256): the output dictionary of
`bleeding_edge_research_activity` is passed as the input of
`generate_markdown_report_activity`. -/
def bleedingEdgeResearchWorkflowRun {V : Type} (topic sources key_concepts
    total_sources concepts_found coverage timestamp date_filter raw_count
    filtered_count : V) : Except String (List V) :=
  generateMarkdownReport (researchActivityOutput topic sources key_concepts
    total_sources concepts_found coverage timestamp date_filter raw_count
    filtered_count)

/-- A search query of the deep research agent
(pydantic_ai_examples/deep_research_agent.py lines 44-47). -/
structure SearchQuery where
  query : String
  focus_area : String
  deriving DecidableEq

/-- A research plan: topic plus queries to run in parallel
(pydantic_ai_examples/deep_research_agent.py lines 58-63). -/
structure ResearchPlan where
  topic : String
  queries : List SearchQuery
  deriving DecidableEq

/-- The kinds of external operations a workflow body can perform:
engine primitives (`workflow.execute_activity`,
`workflow.execute_child_workflow`) versus a direct LLM client invocation
inside the workflow body. -/
inductive WorkflowOp where
  | executeActivity (name : String)
  | executeChildWorkflow (workflowType : String)
  | directLLMCall (model : String)
  deriving DecidableEq

/-- True exactly when the operation goes through an engine primitive that is
recorded as an event (activity or child workflow). -/
def WorkflowOp.isEnginePrimitive : WorkflowOp → Bool
  | .executeActivity _ => true
  | .executeChildWorkflow _ => true
  | .directLLMCall _ => false

/-- Trace of external operations performed by the body of
`DeepResearchWorkflow.run` (pydantic_ai_examples/deep_research_agent.py
lines 162-195). If `research_plan.queries` is empty, the body first calls
`planning_agent.run` directly — a direct LLM client invocation on model
`minimax-m3`, not routed through any activity — and then uses the plan
returned by that call (`llmPlan` here); otherwise it runs one
`search_activity` per query and then `analysis_activity`, all through
`workflow.execute_activity`. Console logging is out of scope per the spec
and is not modelled as an operation. -/
def deepResearchRunOps (research_plan llmPlan : ResearchPlan) : List WorkflowOp :=
  if research_plan.queries.isEmpty then
    WorkflowOp.directLLMCall "minimax-m3" ::
      (llmPlan.queries.map (fun _ => WorkflowOp.executeActivity "search_activity") ++
        [WorkflowOp.executeActivity "analysis_activity"])
  else
    research_plan.queries.map (fun _ => WorkflowOp.executeActivity "search_activity") ++
      [WorkflowOp.executeActivity "analysis_activity"]

/-- Trace of external operations performed by the body of
`BleedingEdgeResearchWorkflow.run` (temporal_research_workflows_v2.py lines
230-256): two `workflow.execute_activity` calls. -/
def bleedingEdgeResearchRunOps : List WorkflowOp :=
  [WorkflowOp.executeActivity "bleeding_edge_research_activity",
   WorkflowOp.executeActivity "generate_markdown_report_activity"]

/-- Trace of external operations performed by the body of
`BleedingEdgeOrchestrator.run_all` (temporal_research_workflows_v2.py lines
259-288): one `workflow.execute_child_workflow` per topic. -/
def bleedingEdgeOrchestratorRunAllOps (topics : List String) : List WorkflowOp :=
  topics.map (fun _ => WorkflowOp.executeChildWorkflow "BleedingEdgeResearchWorkflow")

/-- One child execution of a fan-out: when it completes and what it returns. -/
structure ChildExecution (β : Type) where
  completesAt : Nat
  result : β
  deriving DecidableEq

/-- The completion events of a fan-out, listed in completion order: `order`
is the sequence of child indices in the order in which they complete, and
each event records the index together with that child's result. -/
def completionEvents {β : Type} (children : List (ChildExecution β))
    (order : List Nat) : List (Nat × β) :=
  order.filterMap (fun i => (children[i]?).map (fun c => (i, c.result)))

/-- The result-collection pattern of `BleedingEdgeOrchestrator.run_all`
(temporal_research_workflows_v2.py lines 269-285) and of
`DeepResearchWorkflow.run` (deep_research_agent.py lines 179-188): tasks
are created in the input order of the child specifications, completions
arrive in an arbitrary order and are recorded per child, and after the join
the caller reads `task.result()` for each task in creation order. The `i`-th
output is the recorded completion of child `i`, or `none` if child `i`
never completed. -/
def joinCollect {β : Type} (children : List (ChildExecution β))
    (order : List Nat) : List (Option β) :=
  (List.range children.length).map (fun i => (completionEvents children order).lookup i)

/-- The time at which the join completes: the TaskGroup block is exited only
once every child has completed, i.e. at the maximum completion time. -/
def joinCompletionTime {β : Type} (children : List (ChildExecution β)) : Nat :=
  children.foldl (fun m c => max m c.completesAt) 0

/-- Failure-aggregation policy for a fan-out/join, as the spec defines it:
`failFast` cancels the remaining siblings on the first child failure,
`collectAll` waits for every child and returns per-index result/error pairs. -/
inductive JoinPolicy where
  | failFast
  | collectAll
  deriving DecidableEq

/-- One fan-out/join site in the code: where it is, which host-language
concurrency construct it is built on, and which explicit
failure-aggregation policy (if any) its caller passes. -/
structure FanOutSite where
  location : String
  construct : String
  policy : Option JoinPolicy
  deriving DecidableEq

/-- True when the site is written as an `async with TaskGroup()` block
(the host language's task-group construct). -/
def FanOutSite.usesHostTaskGroup (f : FanOutSite) : Bool :=
  f.construct == "workflow.TaskGroup" || f.construct == "asyncio.TaskGroup"

/-- True when the site relies on any implicit host-language concurrency
construct for joining and error propagation — a TaskGroup block or an
`asyncio.gather` call — rather than an explicit join primitive. -/
def FanOutSite.usesImplicitHostConcurrency (f : FanOutSite) : Bool :=
  f.usesHostTaskGroup || f.construct == "asyncio.gather"

/-- The fan-out/join sites present in the code. Four are written as
`async with TaskGroup()` blocks (`workflow.TaskGroup()` in
temporal_research_workflows_v2.py line 270 and
bleeding_edge_research_final.py line 149, `asyncio.TaskGroup()` in
deep_research_agent.py lines 179 and 260); the fifth is the
`asyncio.gather` call over the 20 researchers in
autonomous_research_swarm.py line 184. None of them takes or passes any
failure-aggregation policy value. -/
def codeFanOutSites : List FanOutSite :=
  [⟨"BleedingEdgeOrchestrator.run_all in temporal_research_workflows_v2.py line 270",
    "workflow.TaskGroup", none⟩,
   ⟨"BleedingEdgeOrchestrator.run_all in bleeding_edge_research_final.py line 149",
    "workflow.TaskGroup", none⟩,
   ⟨"DeepResearchWorkflow.run in deep_research_agent.py line 179",
    "asyncio.TaskGroup", none⟩,
   ⟨"run_research_simple in deep_research_agent.py line 260",
    "asyncio.TaskGroup", none⟩,
   ⟨"run_research_swarm in autonomous_research_swarm.py line 184",
    "asyncio.gather", none⟩]

/-- Retry policy fields as configured in the code
(temporal_research_workflows_v2.py lines 240-245), intervals in seconds. -/
structure RetryPolicy where
  initial_interval : ℚ
  backoff_coefficient : ℚ
  maximum_interval : ℚ
  maximum_attempts : Nat
  deriving DecidableEq

/-- Modelled from the spec: the retry engine is used but not implemented in
the repository. Delay before re-enqueue after the `n`-th retryable failure:
`min(initialInterval * backoffCoefficient^(n-1), maxInterval)`. -/
def retryDelay (p : RetryPolicy) (n : Nat) : ℚ :=
  min (p.initial_interval * p.backoff_coefficient ^ (n - 1)) p.maximum_interval

/-- Modelled from the spec: the scheduler loop for an activity whose every
attempt fails with a retryable error. Starting from attempt number
`attempt`, while `attempt < maxAttempts` the scheduler emits the backoff
delay for that attempt and retries; once `attempt` reaches `maxAttempts` it
appends the terminal `ActivityFailed`. `fuel` is a structural bound on the
number of remaining retries (the caller passes `maximum_attempts`, which
suffices). -/
def failingRetryDelaysAux (p : RetryPolicy) : Nat → Nat → List ℚ
  | _, 0 => []
  | attempt, fuel + 1 =>
    if attempt < p.maximum_attempts then
      retryDelay p attempt :: failingRetryDelaysAux p (attempt + 1) fuel
    else []

/-- Modelled from the spec: the sequence of observed retry delays for an
always-failing activity under policy `p` (with bounded `maximum_attempts`;
the spec's `0 = unlimited` case never terminates and is not modelled). -/
def failingRetryDelays (p : RetryPolicy) : List ℚ :=
  failingRetryDelaysAux p 1 p.maximum_attempts

/-- Total number of attempts made for an always-failing activity: one
initial attempt plus one retry per observed delay. -/
def failingRunAttemptCount (p : RetryPolicy) : Nat :=
  (failingRetryDelays p).length + 1

/-- The retry policy configured on `bleeding_edge_research_activity`
(temporal_research_workflows_v2.py lines 240-245): initial interval 1s,
backoff coefficient 2.0, maximum interval 15s, maximum attempts 3. -/
def bleedingEdgeRetryPolicy : RetryPolicy :=
  { initial_interval := 1, backoff_coefficient := 2,
    maximum_interval := 15, maximum_attempts := 3 }

/-- A deterministic workflow body as the spec's determinism contract
requires: a pure program that can only request activity executions (name
and input) and continue on the recorded result, or complete with a value. -/
inductive Prog (α : Type) where
  | done (result : α)
  | callActivity (name : String) (input : Nat) (k : Nat → Prog α)

/-- Modelled from the spec: the replay-and-advance executor (spec sections
4.2 and 4.6). Running program `p` against a persisted event history: each
activity request whose completion event already exists in history is
memoized — the recorded result is substituted and the external side effect
is not invoked; once history is exhausted, further activity requests invoke
the external world `env`, append their completion events, and continue.
Recovery after a crash is this very same function applied to the longer
persisted history — there is no separate recovery code path. Returns the
list of external invocations actually performed (name, input), the list of
newly appended completion events, and the final result. -/
def replayExec {α : Type} (env : String → Nat → Nat) :
    Prog α → List Nat → List (String × Nat) × List Nat × α
  | Prog.done a, _ => ([], [], a)
  | Prog.callActivity name input k, [] =>
    let r := env name input
    let rest := replayExec env (k r) []
    ((name, input) :: rest.1, r :: rest.2.1, rest.2.2)
  | Prog.callActivity _ _ k, e :: h => replayExec env (k e) h

/-- A concrete two-activity workflow in the shape of
`BleedingEdgeResearchWorkflow.run`: a research step followed by a report
step consuming the research result. -/
def twoStepProg : Prog Nat :=
  Prog.callActivity "research" 0 (fun r1 =>
    Prog.callActivity "report" r1 (fun r2 => Prog.done (r1 + r2)))

/-- A deterministic external world for the concrete recovery scenario. -/
def demoEnv : String → Nat → Nat :=
  fun name input => if name == "research" then input + 10 else input + 100

/-- Modelled from the spec: engine-visible happenings of one run as seen by
a client waiting on `get_result`. Engine-level errors (storage unavailable,
lease contention) are retried transparently by the engine; decision cycles
make progress; a terminal workflow event carries the result or the error. -/
inductive EngineEvent where
  | engineError (message : String)
  | decisionCycle
  | workflowCompleted (result : String)
  | workflowFailed (error : String)
  deriving DecidableEq

/-- True exactly for engine-level errors. -/
def EngineEvent.isEngineError : EngineEvent → Bool
  | .engineError _ => true
  | _ => false

/-- The terminal outcome recorded by an event, if it is a workflow-level
terminal event: the workflow's result or its error. -/
def terminalOutcome : EngineEvent → Option (Except String String)
  | EngineEvent.workflowCompleted r => some (Except.ok r)
  | EngineEvent.workflowFailed e => some (Except.error e)
  | _ => none

/-- Modelled from the spec: `get_result(handle)` blocks until the run
reaches a terminal state and then returns the workflow's result or error.
Over a trace of engine events, `none` means the caller is still blocked;
`some` is the first workflow-level terminal outcome. -/
def getResult (trace : List EngineEvent) : Option (Except String String) :=
  trace.findSome? terminalOutcome

/-- A concrete trace in which the engine hits a storage error, recovers,
and the workflow then completes. -/
def demoTrace : List EngineEvent :=
  [EngineEvent.engineError "storage unavailable", EngineEvent.decisionCycle,
   EngineEvent.workflowCompleted "report.md"]

/-- Event kinds of a run's history relevant to the client API model
(spec section 3). -/
inductive Event where
  | workflowStarted
  | activityScheduled (name : String)
  | activityCompleted (name : String)
  | signalReceived (name payload : String)
  | cancelRequested
  | workflowCompleted (result : String)
  | workflowFailed (error : String)
  | workflowCancelled
  deriving DecidableEq

/-- Workflow execution status (spec section 3). -/
inductive Status where
  | running
  | completed
  | failed
  | cancelled
  deriving DecidableEq

/-- Modelled from the spec: the status of a run is derived by replaying its
event history — a terminal event decides it, otherwise the run is still
running. -/
def statusOf (history : List Event) : Status :=
  history.foldl (fun st e =>
    match e with
    | Event.workflowCompleted _ => Status.completed
    | Event.workflowFailed _ => Status.failed
    | Event.workflowCancelled => Status.cancelled
    | _ => st) Status.running

/-- The engine-side state of one run that client operations can touch: its
event history and its pending activity tasks. -/
structure RunState where
  history : List Event
  pendingTasks : List String
  deriving DecidableEq

/-- The read-only snapshot a query returns: the replay-derived status and
the history length observed. -/
structure Snapshot where
  status : Status
  historyLength : Nat
  deriving DecidableEq

/-- Client-facing operations on a run handle (spec section 6). -/
inductive ClientOp where
  | signal (name payload : String)
  | cancel
  | query
  deriving DecidableEq

/-- Modelled from the spec: the effect of one client operation on a run.
`signal` appends `SignalReceived`; `cancel` appends `CancelRequested`;
`query` mutates nothing and returns the snapshot derived from replaying the
history (the status inspection in test_durability.py lines 17-23 is such a
query). -/
def applyClientOp : ClientOp → RunState → RunState × Option Snapshot
  | ClientOp.signal name payload, s =>
    ({ s with history := s.history ++ [Event.signalReceived name payload] }, none)
  | ClientOp.cancel, s =>
    ({ s with history := s.history ++ [Event.cancelRequested] }, none)
  | ClientOp.query, s => (s, some ⟨statusOf s.history, s.history.length⟩)

/-- A worker registration: the task queue it polls and the workflow and
activity types it registers at startup. Workflow type identifiers are the
class names of the registered workflow classes, which is also how the
workers themselves announce them on startup. -/
structure WorkerRegistration where
  task_queue : String
  workflows : List String
  activities : List String
  deriving DecidableEq

/-- Registration made by bleeding_edge_worker.py (lines 32-38). -/
def bleedingEdgeWorkerRegistration : WorkerRegistration :=
  ⟨"research-tasks",
   ["BleedingEdgeResearchWorkflow", "BleedingEdgeOrchestrator"],
   ["bleeding_edge_research_activity", "generate_markdown_report_activity"]⟩

/-- Registration made by run_bleeding_worker.py. -/
def runBleedingWorkerRegistration : WorkerRegistration :=
  ⟨"research-tasks",
   ["BleedingEdgeResearchWorkflow", "BleedingEdgeOrchestrator"],
   ["bleeding_edge_research_activity", "generate_markdown_report_activity"]⟩

/-- Registration made by worker.py. -/
def simpleWorkerRegistration : WorkerRegistration :=
  ⟨"research-tasks", ["ResearchWorkflow"], ["research_activity"]⟩

/-- Registration made by pydantic_ai_examples/temporal_worker.py. -/
def comprehensiveWorkerRegistration : WorkerRegistration :=
  ⟨"research-tasks", ["ResearchWorkflow", "DeepResearchWorkflow"],
   ["research_activity", "search_activity", "analysis_activity"]⟩

/-- Every worker registration present in the code. -/
def workerRegistrations : List WorkerRegistration :=
  [bleedingEdgeWorkerRegistration, runBleedingWorkerRegistration,
   simpleWorkerRegistration, comprehensiveWorkerRegistration]

/-- The workflow type names registered by some worker for a task queue. -/
def registeredWorkflowNames (queue : String) : List String :=
  (workerRegistrations.filter (fun w => w.task_queue == queue)).flatMap
    (fun w => w.workflows)

/-- One client-side workflow start: the workflow type string passed, the
task queue, and where in the code the call is made. -/
structure StartWorkflowCall where
  workflow_type : String
  task_queue : String
  caller : String
  deriving DecidableEq

/-- Every string-named workflow start in the code. -/
def clientStartCalls : List StartWorkflowCall :=
  [⟨"BleedingEdgeOrchestrator.run_all", "research-tasks",
    "run_bleeding_edge_research_swarm in temporal_research_workflows_v2.py lines 447-453"⟩,
   ⟨"BleedingEdgeOrchestrator.run_all", "research-tasks",
    "run_bleeding_edge_swarm in bleeding_edge_research_final.py"⟩,
   ⟨"BleedingEdgeResearchWorkflow", "research-tasks",
    "child workflow start in BleedingEdgeOrchestrator.run_all"⟩,
   ⟨"ResearchWorkflow", "research-tasks", "main in simple_temporal_demo.py lines 32-40"⟩,
   ⟨"DeepResearchWorkflow", "deep-research",
    "run_with_temporal in deep_research_agent.py"⟩]

/- ==================== Theorems ==================== -/

/-- C9: for every topic (and whatever values the research produces), the
`BleedingEdgeResearchWorkflow` pipeline fails: the dictionary produced by
`bleeding_edge_research_activity` carries exactly the ten keys `topic`,
`sources`, `key_concepts`, `total_sources`, `concepts_found`, `coverage`,
`timestamp`, `date_filter`, `raw_count`, `filtered_count`, and
`generate_markdown_report_activity` raises `KeyError` on
`executive_summary` — the first key it reads that is absent. -/
theorem pipeline_keyerror_executive_summary {V : Type} (topic sources key_concepts
    total_sources concepts_found coverage timestamp date_filter raw_count
    filtered_count : V) :
    (researchActivityOutput topic sources key_concepts total_sources
        concepts_found coverage timestamp date_filter raw_count
        filtered_count).map Prod.fst =
      ["topic", "sources", "key_concepts", "total_sources", "concepts_found",
       "coverage", "timestamp", "date_filter", "raw_count", "filtered_count"] ∧
    bleedingEdgeResearchWorkflowRun topic sources key_concepts total_sources
      concepts_found coverage timestamp date_filter raw_count filtered_count =
      Except.error "executive_summary" := by
  exact ⟨rfl, rfl⟩

/-- C9 witness: the pipeline evaluated at a concrete research output fails
with `KeyError` on `executive_summary`. -/
theorem pipeline_keyerror_witness :
    bleedingEdgeResearchWorkflowRun "Temporal workflow patterns for AI agents 2025"
      "s" "kc" "ts" "cf" "cov" "tm" "df" "rc" "fc" =
      Except.error "executive_summary" :=
  (pipeline_keyerror_executive_summary "Temporal workflow patterns for AI agents 2025"
    "s" "kc" "ts" "cf" "cov" "tm" "df" "rc" "fc").2

/-- C10: if at least one fetched source matches the June-November 2025 date
filter, the returned sources are exactly the matching ones; if none match,
the first 10 unfiltered sources are returned instead of an empty list —
so the output, though labeled `June-November 2025`, can contain a source
outside that range. -/
theorem date_filter_fallback (sources : List SourceEntry) :
    (sources.filter (fun s => matchesDateFilter s.published_date) ≠ [] →
      filterBleedingEdgeSources sources =
        sources.filter (fun s => matchesDateFilter s.published_date)) ∧
    (sources.filter (fun s => matchesDateFilter s.published_date) = [] →
      filterBleedingEdgeSources sources = sources.take 10) ∧
    (∃ srcs : List SourceEntry,
      srcs.filter (fun s => matchesDateFilter s.published_date) = [] ∧
      ∃ s ∈ filterBleedingEdgeSources srcs, matchesDateFilter s.published_date = false) := by
  refine ⟨?_, ?_, ?_⟩
  · intro h
    simp only [filterBleedingEdgeSources]
    rw [if_neg]
    simpa [List.isEmpty_iff] using h
  · intro h
    simp only [filterBleedingEdgeSources]
    rw [if_pos]
    simpa [List.isEmpty_iff] using h
  · refine ⟨[⟨"Old post", "url", "content", "query", "2024-01-15"⟩], by decide,
      ⟨"Old post", "url", "content", "query", "2024-01-15"⟩, by decide, by decide⟩

/-- C10 witness: with one matching source the filter keeps exactly it, by
the first conjunct of the theorem at a concrete list. -/
theorem date_filter_fallback_witness :
    ([⟨"New post", "url", "content", "query", "2025-07-01"⟩] : List SourceEntry).filter
      (fun s => matchesDateFilter s.published_date) ≠ [] ∧
    filterBleedingEdgeSources [⟨"New post", "url", "content", "query", "2025-07-01"⟩] =
      ([⟨"New post", "url", "content", "query", "2025-07-01"⟩] : List SourceEntry).filter
        (fun s => matchesDateFilter s.published_date) :=
  ⟨by decide,
   (date_filter_fallback [⟨"New post", "url", "content", "query", "2025-07-01"⟩]).1
     (by decide)⟩

/-- C3 counterexample: it is false that every fan-out/join in the code
carries an explicit caller-chosen FailFast/CollectAll policy and avoids the
host language's implicit task-group construct — every recorded fan-out
site fails the explicit-policy condition, and four of the five are
TaskGroup blocks. -/
theorem fanout_sites_no_explicit_policy :
    (codeFanOutSites.all
      (fun f => f.policy.isSome && !f.usesHostTaskGroup)) = false := by
  decide

/-- C3 amended: no fan-out/join in the code carries an explicit
failure-aggregation policy; every one of the five sites relies on an
implicit host-language concurrency construct — four are TaskGroup blocks
and the one remaining site is the `asyncio.gather` call in
autonomous_research_swarm.py. -/
theorem fanout_sites_taskgroup_implicit :
    (codeFanOutSites.all
      (fun f => f.usesImplicitHostConcurrency && f.policy.isNone)) = true ∧
    (codeFanOutSites.filter (fun f => !f.usesHostTaskGroup)).map
      (fun f => f.construct) = ["asyncio.gather"] := by
  refine ⟨by decide, by decide⟩

/-- C7: evaluation at the failing input. The workflow type string
`BleedingEdgeOrchestrator.run_all` passed by the clients to
`start_workflow` on task queue `research-tasks` is not among the workflow
type names registered by any worker for that queue (those are the class
names, `BleedingEdgeOrchestrator` among them), and no worker at all
registers for the `deep-research` queue used to start
`DeepResearchWorkflow`; so not every client-passed workflow type name is
registered for its task queue. -/
theorem unregistered_workflow_type_at_dispatch :
    (clientStartCalls.all
      (fun c => (registeredWorkflowNames c.task_queue).contains c.workflow_type)) = false ∧
    (registeredWorkflowNames "research-tasks").contains
      "BleedingEdgeOrchestrator.run_all" = false ∧
    (registeredWorkflowNames "research-tasks").contains
      "BleedingEdgeOrchestrator" = true ∧
    registeredWorkflowNames "deep-research" = [] := by
  refine ⟨by decide, by decide, by decide, by decide⟩

/-- C8: the query operation is read-only — applied to any run state it
leaves the state (history and pending tasks) unchanged and returns the
snapshot derived from replaying the history. -/
theorem query_is_readonly (s : RunState) :
    (applyClientOp ClientOp.query s).1 = s ∧
    (applyClientOp ClientOp.query s).1.history = s.history ∧
    (applyClientOp ClientOp.query s).1.pendingTasks = s.pendingTasks ∧
    (applyClientOp ClientOp.query s).2 =
      some ⟨statusOf s.history, s.history.length⟩ :=
  ⟨rfl, rfl, rfl, rfl⟩

/-- C8 witness: the theorem evaluated at a concrete mid-run state. -/
theorem query_is_readonly_witness :
    (applyClientOp ClientOp.query
        ⟨[Event.workflowStarted, Event.activityScheduled "research_activity"],
         ["research_activity"]⟩).1 =
      ⟨[Event.workflowStarted, Event.activityScheduled "research_activity"],
       ["research_activity"]⟩ :=
  (query_is_readonly
    ⟨[Event.workflowStarted, Event.activityScheduled "research_activity"],
     ["research_activity"]⟩).1

/-- Helper: element `j` (0-based) of the scheduler loop's delay list,
started at attempt number `attempt` with enough fuel, is the backoff delay
of attempt `attempt + j`, as long as that attempt is followed by a retry. -/
theorem failingRetryDelaysAux_getElem (p : RetryPolicy) (fuel : Nat) :
    ∀ (attempt j : Nat), j < fuel → attempt + j < p.maximum_attempts →
      (failingRetryDelaysAux p attempt fuel)[j]? = some (retryDelay p (attempt + j)) := by
  induction fuel with
  | zero => intro attempt j hj _; omega
  | succ fuel ih =>
    intro attempt j hj hlt
    have hatt : attempt < p.maximum_attempts := by omega
    rw [failingRetryDelaysAux, if_pos hatt]
    cases j with
    | zero => simp
    | succ j =>
      have h1 : j < fuel := by omega
      have h2 : attempt + 1 + j < p.maximum_attempts := by omega
      rw [List.getElem?_cons_succ, ih (attempt + 1) j h1 h2]
      have harith : attempt + 1 + j = attempt + (j + 1) := by omega
      rw [harith]

/-- C4: for every retry policy and every attempt number `n ≥ 1` that is
followed by a retry, the delay observed by the scheduler loop after the
`n`-th retryable failure is
`min(initialInterval * backoffCoefficient^(n-1), maxInterval)`; and for the
policy configured on `bleeding_edge_research_activity` (1s initial, 2.0
backoff, 15s cap, 3 attempts) an always-failing activity observes delays of
exactly 1s then 2s and fails terminally after the 3rd attempt, with no 4th
attempt. -/
theorem retry_schedule_bleeding_edge (p : RetryPolicy) (n : Nat) (hn : 1 ≤ n)
    (hretry : n < p.maximum_attempts) :
    (failingRetryDelays p)[n - 1]? =
      some (min (p.initial_interval * p.backoff_coefficient ^ (n - 1)) p.maximum_interval) ∧
    failingRetryDelays bleedingEdgeRetryPolicy = [1, 2] ∧
    failingRunAttemptCount bleedingEdgeRetryPolicy = 3 := by
  refine ⟨?_, ?_, ?_⟩
  · have h1 : n - 1 < p.maximum_attempts := by omega
    have h2 : 1 + (n - 1) < p.maximum_attempts := by omega
    have := failingRetryDelaysAux_getElem p p.maximum_attempts 1 (n - 1) h1 h2
    rw [failingRetryDelays]
    rw [this]
    have hne : 1 + (n - 1) = n := by omega
    rw [hne]
    rfl
  · norm_num [failingRetryDelays, failingRetryDelaysAux, retryDelay,
      bleedingEdgeRetryPolicy, min_def]
  · norm_num [failingRunAttemptCount, failingRetryDelays, failingRetryDelaysAux,
      retryDelay, bleedingEdgeRetryPolicy, min_def]

/-- C4 witness: the theorem applied at the configured policy and `n = 2`:
the delay observed after the second failure is `min(1 * 2^1, 15) = 2`
seconds. -/
theorem retry_schedule_bleeding_edge_witness :
    ((1 : Nat) ≤ 2 ∧ 2 < bleedingEdgeRetryPolicy.maximum_attempts) ∧
    (failingRetryDelays bleedingEdgeRetryPolicy)[2 - 1]? =
      some (min (bleedingEdgeRetryPolicy.initial_interval *
        bleedingEdgeRetryPolicy.backoff_coefficient ^ (2 - 1))
        bleedingEdgeRetryPolicy.maximum_interval) :=
  ⟨⟨by decide, by decide⟩,
   (retry_schedule_bleeding_edge bleedingEdgeRetryPolicy 2 (by decide) (by decide)).1⟩

/-- C1 counterexample: the body of `DeepResearchWorkflow.run` does not
perform external operations only via `workflow.execute_activity` — on a
research plan with an empty query list it invokes an LLM client directly
(the `minimax-m3` planning agent), an operation that is not an engine
primitive. -/
theorem deep_research_run_direct_llm :
    ((deepResearchRunOps ⟨"The impact of quantum computing on cryptography", []⟩
        ⟨"The impact of quantum computing on cryptography", []⟩).all
      WorkflowOp.isEnginePrimitive) = false := by
  decide

/-- C1 amended: provided its research plan arrives with a non-empty query
list, the body of `DeepResearchWorkflow.run` performs external operations
only through engine primitives recorded as events
(`workflow.execute_activity`); with an empty query list it first invokes an
LLM client directly. The bleeding-edge workflow bodies perform external
operations only through engine primitives (`execute_activity`,
`execute_child_workflow`) unconditionally. -/
theorem workflow_ops_via_engine_primitives (research_plan llmPlan : ResearchPlan)
    (topics : List String) (hq : research_plan.queries ≠ []) :
    (deepResearchRunOps research_plan llmPlan).all WorkflowOp.isEnginePrimitive = true ∧
    bleedingEdgeResearchRunOps.all WorkflowOp.isEnginePrimitive = true ∧
    (bleedingEdgeOrchestratorRunAllOps topics).all WorkflowOp.isEnginePrimitive = true := by
  refine ⟨?_, by decide, ?_⟩
  · have hne : research_plan.queries.isEmpty = false := by
      simpa [List.isEmpty_iff] using hq
    simp only [deepResearchRunOps, hne, Bool.false_eq_true, if_false,
      List.all_append, List.all_map]
    simp [WorkflowOp.isEnginePrimitive, List.all_eq_true]
  · simp [bleedingEdgeOrchestratorRunAllOps, List.all_eq_true,
      WorkflowOp.isEnginePrimitive]

/-- C1 witness: the amended theorem applied to the plan that
`run_with_temporal` actually passes (three queries) and the 20 research
topics fan-out. -/
theorem workflow_ops_via_engine_primitives_witness :
    ((⟨"Quantum Computing and Cryptography",
        [⟨"quantum computing cryptography threats", "Security"⟩,
         ⟨"post-quantum cryptography algorithms", "Solutions"⟩,
         ⟨"quantum resistant encryption standards", "Standards"⟩]⟩ : ResearchPlan).queries ≠ []) ∧
    (deepResearchRunOps
        ⟨"Quantum Computing and Cryptography",
          [⟨"quantum computing cryptography threats", "Security"⟩,
           ⟨"post-quantum cryptography algorithms", "Solutions"⟩,
           ⟨"quantum resistant encryption standards", "Standards"⟩]⟩
        ⟨"Quantum Computing and Cryptography", []⟩).all
      WorkflowOp.isEnginePrimitive = true :=
  ⟨by decide,
   (workflow_ops_via_engine_primitives
     ⟨"Quantum Computing and Cryptography",
       [⟨"quantum computing cryptography threats", "Security"⟩,
        ⟨"post-quantum cryptography algorithms", "Solutions"⟩,
        ⟨"quantum resistant encryption standards", "Standards"⟩]⟩
     ⟨"Quantum Computing and Cryptography", []⟩ [] (by decide)).1⟩

/-- Helper: when child `i` exists and completes at some point of the
completion order, the result recorded for index `i` is child `i`'s result,
wherever in the completion order it finished. -/
theorem completionEvents_lookup_eq {β : Type} (children : List (ChildExecution β)) :
    ∀ (order : List Nat) (i : Nat), i ∈ order → i < children.length →
      (completionEvents children order).lookup i =
        (children[i]?).map (fun c => c.result) := by
  intro order
  induction order with
  | nil => intro i hmem _; cases hmem
  | cons a rest ih =>
    intro i hmem hi
    simp only [completionEvents, List.filterMap_cons]
    cases ha : children[a]? with
    | none =>
      have hia : i ≠ a := by
        intro hcontra
        subst hcontra
        rw [List.getElem?_eq_none_iff] at ha
        omega
      have hmem' : i ∈ rest := by
        rcases List.mem_cons.mp hmem with hcase | hcase
        · exact absurd hcase hia
        · exact hcase
      simpa [completionEvents] using ih i hmem' hi
    | some c =>
      simp only [Option.map_some']
      by_cases hia : i = a
      · subst hia
        simp [List.lookup, ha]
      · have hmem' : i ∈ rest := by
          rcases List.mem_cons.mp hmem with hcase | hcase
          · exact absurd hcase hia
          · exact hcase
        have hbeq : (i == a) = false := by
          simp [hia]
        simpa [List.lookup, hbeq, completionEvents] using ih i hmem' hi

/-- Helper: the running maximum of completion times only grows from its
initial value. -/
theorem foldl_max_init_le {β : Type} (l : List (ChildExecution β)) :
    ∀ init : Nat, init ≤ l.foldl (fun m c => max m c.completesAt) init := by
  induction l with
  | nil => intro init; exact Nat.le_refl init
  | cons a l ih =>
    intro init
    calc init ≤ max init a.completesAt := Nat.le_max_left _ _
    _ ≤ l.foldl (fun m c => max m c.completesAt) (max init a.completesAt) := ih _

/-- Helper: every child's completion time is bounded by the folded maximum. -/
theorem mem_le_foldl_max {β : Type} (l : List (ChildExecution β)) :
    ∀ (init : Nat) (c : ChildExecution β), c ∈ l →
      c.completesAt ≤ l.foldl (fun m x => max m x.completesAt) init := by
  induction l with
  | nil => intro _ c hc; cases hc
  | cons a l ih =>
    intro init c hc
    rcases List.mem_cons.mp hc with hcase | hcase
    · subst hcase
      calc c.completesAt ≤ max init c.completesAt := Nat.le_max_right _ _
      _ ≤ l.foldl (fun m x => max m x.completesAt) (max init c.completesAt) :=
          foldl_max_init_le l _
    · exact ih _ c hcase

/-- C2: whatever order the children of a fan-out complete in (any
permutation of the child indices), the joined result list read back by the
caller is in the input order of the child specifications — entry `i` is
child `i`'s result — and the join completes no earlier than every child's
completion time. -/
theorem fanout_join_input_order {β : Type} (children : List (ChildExecution β))
    (order : List Nat) (hperm : order.Perm (List.range children.length)) :
    joinCollect children order = children.map (fun c => some c.result) ∧
    ∀ c ∈ children, c.completesAt ≤ joinCompletionTime children := by
  constructor
  · apply List.ext_getElem?
    intro n
    by_cases hn : n < children.length
    · have hmem : n ∈ order := hperm.mem_iff.mpr (List.mem_range.mpr hn)
      have hlookup := completionEvents_lookup_eq children order n hmem hn
      simp only [joinCollect, List.getElem?_map]
      rw [List.getElem?_range hn]
      simp only [Option.map_some']
      rw [hlookup]
      rw [List.getElem?_eq_getElem hn]
      simp
    · have hge : children.length ≤ n := Nat.le_of_not_lt hn
      simp only [joinCollect, List.getElem?_map]
      rw [List.getElem?_eq_none (by simpa using hge),
        List.getElem?_eq_none (by simpa using hge)]
      rfl
  · intro c hc
    exact mem_le_foldl_max children 0 c hc

/-- C2 witness: three children completing at times 5, 1 and 3 (completion
order `[1, 2, 0]`, a permutation of the input indices): the join still
returns `[child0, child1, child2]` in input order and completes at time
`joinCompletionTime ≥ 5`. -/
theorem fanout_join_input_order_witness :
    ([1, 2, 0] : List Nat).Perm (List.range 3) ∧
    joinCollect ([⟨5, "child0"⟩, ⟨1, "child1"⟩, ⟨3, "child2"⟩] :
        List (ChildExecution String)) [1, 2, 0] =
      [some "child0", some "child1", some "child2"] ∧
    5 ≤ joinCompletionTime ([⟨5, "child0"⟩, ⟨1, "child1"⟩, ⟨3, "child2"⟩] :
        List (ChildExecution String)) := by
  have h := fanout_join_input_order (β := String)
    [⟨5, "child0"⟩, ⟨1, "child1"⟩, ⟨3, "child2"⟩] [1, 2, 0] (by decide)
  refine ⟨by decide, ?_, ?_⟩
  · rw [h.1]; rfl
  · exact h.2 ⟨5, "child0"⟩ (by decide)

/-- C5: for every deterministic workflow program, external world, and crash
point, if `h` is the prefix of the uninterrupted run's event history that
was persisted before the crash, then the recovery run — the same
replay-and-advance function applied to the longer history, with no
separate recovery code path — (a) re-invokes none of the activities whose
completions are recorded in `h` (its invocation list is exactly the
uninterrupted run's invocations with the first `h.length` dropped), (b)
reaches the same terminal result as the uninterrupted execution, and (c)
extends the persisted history to exactly the uninterrupted run's history. -/
theorem crash_recovery_replay {α : Type} (env : String → Nat → Nat) (p : Prog α)
    (h : List Nat) (hpre : ∃ t, h ++ t = (replayExec env p []).2.1) :
    (replayExec env p h).1 = (replayExec env p []).1.drop h.length ∧
    (replayExec env p h).2.2 = (replayExec env p []).2.2 ∧
    h ++ (replayExec env p h).2.1 = (replayExec env p []).2.1 := by
  induction p generalizing h with
  | done a =>
    obtain ⟨t, ht⟩ := hpre
    simp only [replayExec] at ht
    have hnil : h = [] := by
      cases h with
      | nil => rfl
      | cons x xs => simp at ht
    subst hnil
    exact ⟨rfl, rfl, rfl⟩
  | callActivity name input k ih =>
    cases h with
    | nil => exact ⟨rfl, rfl, rfl⟩
    | cons e h' =>
      obtain ⟨t, ht⟩ := hpre
      simp only [replayExec, List.cons_append, List.cons.injEq] at ht
      obtain ⟨he, ht'⟩ := ht
      subst he
      have ihr := ih (env name input) h' ⟨t, ht'⟩
      refine ⟨?_, ?_, ?_⟩
      · simpa [replayExec, List.drop_succ_cons] using ihr.1
      · simpa [replayExec] using ihr.2.1
      · simp only [replayExec, List.cons_append, List.cons.injEq]
        exact ⟨trivial, ihr.2.2⟩

/-- C5 witness: the two-step workflow crashes after its first activity's
completion (with recorded result 10) is persisted; recovery from history
`[10]` invokes only the second activity — the first is not re-invoked —
and reaches the same terminal result as the uninterrupted run. -/
theorem crash_recovery_replay_witness :
    (∃ t, [10] ++ t = (replayExec demoEnv twoStepProg []).2.1) ∧
    (replayExec demoEnv twoStepProg [10]).1 =
      (replayExec demoEnv twoStepProg []).1.drop 1 ∧
    (replayExec demoEnv twoStepProg [10]).1 = [("report", 10)] ∧
    (replayExec demoEnv twoStepProg [10]).2.2 =
      (replayExec demoEnv twoStepProg []).2.2 :=
  ⟨⟨[110], rfl⟩,
   (crash_recovery_replay demoEnv twoStepProg [10] ⟨[110], rfl⟩).1,
   rfl,
   (crash_recovery_replay demoEnv twoStepProg [10] ⟨[110], rfl⟩).2.1⟩

/-- C6: `get_result` blocks (returns nothing) exactly as long as no
workflow-level terminal event exists in the run's engine trace; its answer
is unchanged if all engine-level error events (storage unavailable, lease
contention) are removed from the trace — they are retried internally and
never surface; and whenever it returns an outcome, that outcome is carried
by a workflow-level terminal event of the trace, never by an engine-level
error. -/
theorem get_result_terminal_only (trace : List EngineEvent) (o : Except String String) :
    (getResult trace = none ↔ ∀ e ∈ trace, terminalOutcome e = none) ∧
    getResult (trace.filter (fun e => !e.isEngineError)) = getResult trace ∧
    (getResult trace = some o →
      ∃ e ∈ trace, terminalOutcome e = some o ∧ e.isEngineError = false) := by
  refine ⟨?_, ?_, ?_⟩
  · induction trace with
    | nil => simp [getResult]
    | cons e t _ =>
      cases e <;> simp [getResult, terminalOutcome]
  · induction trace with
    | nil => rfl
    | cons e t ih =>
      cases e <;>
        simp [getResult, terminalOutcome, EngineEvent.isEngineError,
          List.filter_cons] <;>
        simpa [getResult] using ih
  · induction trace with
    | nil => intro hcontra; simp [getResult] at hcontra
    | cons e t ih =>
      intro hsome
      cases e with
      | engineError m =>
        have : getResult t = some o := by simpa [getResult, terminalOutcome] using hsome
        obtain ⟨x, hx, hout, herr⟩ := ih this
        exact ⟨x, List.mem_cons_of_mem _ hx, hout, herr⟩
      | decisionCycle =>
        have : getResult t = some o := by simpa [getResult, terminalOutcome] using hsome
        obtain ⟨x, hx, hout, herr⟩ := ih this
        exact ⟨x, List.mem_cons_of_mem _ hx, hout, herr⟩
      | workflowCompleted r =>
        have : some (Except.ok r) = some o := by
          simpa [getResult, terminalOutcome] using hsome
        exact ⟨EngineEvent.workflowCompleted r, List.mem_cons_self _ _, this, rfl⟩
      | workflowFailed err =>
        have : some (Except.error err) = some o := by
          simpa [getResult, terminalOutcome] using hsome
        exact ⟨EngineEvent.workflowFailed err, List.mem_cons_self _ _, this, rfl⟩

/-- C6 witness: on the concrete trace with a transient storage error
followed by workflow completion, `get_result` returns the workflow result
`report.md`, and by the theorem that outcome is carried by a terminal
workflow event that is not an engine error. -/
theorem get_result_terminal_only_witness :
    getResult demoTrace = some (Except.ok "report.md") ∧
    ∃ e ∈ demoTrace, terminalOutcome e = some (Except.ok "report.md") ∧
      e.isEngineError = false :=
  ⟨rfl, (get_result_terminal_only demoTrace (Except.ok "report.md")).2.2 rfl⟩

end Spec2Proof
